import Mathlib

/-!
Shallow embedding of the `embedded-audio` WAV decoder
(src/src/lib.rs and src/src/wav.rs) and verification of the
specification claims about it.

Bytes are modelled as `Nat` (values below 256 in every concrete input),
machine-integer narrowing is explicit (`% 65536` for `as u16`), fallible
Rust code returns `Except`, and a Rust panic (out-of-range slice index,
`unwrap` of `None`) is modelled as the `none` value of an outer `Option`
layer.  Mutable state (the file cursor, the caller's buffer, the chunk
table) is threaded explicitly.
-/

/-- Error taxonomy of the decoder (src/src/wav.rs, `enum Error`). -/
inductive PlatformFileError
  | SeekOutofBounds
  | EOF
deriving DecidableEq, BEq

/-- Errors of the WAV parser (src/src/wav.rs lines 7-35). -/
inductive Error
  | NoRiffChunkFound
  | NoWaveChunkFound
  | NoWaveTagFound
  | NoFmtChunkFound
  | NoDataChunkFound
  | FmtChunkError
  | UnsupportedAudioFormat
  | UnknownChunk
  | UnknownEncoding
  | UnsupportedChannelCount
  | ChunkSizeIncorrect
  | ExceededMaxChunks
  | PlatformError (e : PlatformFileError)
deriving DecidableEq, BEq

/-- Sample encodings (src/src/lib.rs, `enum SampleFormat`). -/
inductive SampleFormat
  | I8
  | U8
  | I16
  | I24
deriving DecidableEq, BEq

/-- Number of bytes one sample consumes (src/src/lib.rs, `SampleFormat::size`). -/
def SampleFormat.size : SampleFormat → Nat
  | .I8 => 1
  | .U8 => 1
  | .I16 => 2
  | .I24 => 3

/-- Channel layouts (src/src/lib.rs, `enum Channels`). -/
inductive Channels
  | Mono
  | Stereo
deriving DecidableEq, BEq

/-- Modelled from the spec: the Platform File Capability of section 6, the
external collaborator behind the `PlatformFile` trait of src/src/lib.rs: a
byte-addressable seekable handle over fixed contents with one cursor.  The
read semantics follow the in-repo `TestFile` (src/src/lib.rs lines 178-197):
reading at the end is an `EOF` error, otherwise up to `buf.length` bytes are
copied, truncated at the end of the contents. -/
structure MFile where
  contents : List Nat
  pos : Nat
deriving DecidableEq, BEq

/-- Platform read: returns the new file, the new caller buffer (a prefix
overwritten with the bytes read, the remainder untouched) and the number of
bytes read. -/
def mread (f : MFile) (buf : List Nat) : Except PlatformFileError (MFile × List Nat × Nat) :=
  if f.pos = f.contents.length then .error .EOF
  else
    let rlen := if f.pos + buf.length ≥ f.contents.length then f.contents.length - f.pos
                else buf.length
    .ok ({ f with pos := f.pos + rlen },
         ((f.contents.drop f.pos).take rlen) ++ buf.drop rlen,
         rlen)

/-- Platform absolute seek (matches `TestFile::seek_from_start`): an offset
beyond the contents is out of bounds. -/
def MFile.seek_from_start (f : MFile) (offset : Nat) : Except PlatformFileError MFile :=
  if offset > f.contents.length then .error .SeekOutofBounds
  else .ok { f with pos := offset }

/-- Modelled from the spec: section 6 `seek_from_current(signed byte offset)`
moves the cursor by a signed byte delta and reports out-of-range as an error.
(The in-repo `TestFile` negative-offset path performs a wrapping `u16` cast
and does not implement this contract faithfully; the spec's capability is
used here.) -/
def MFile.seek_from_current (f : MFile) (offset : Int) : Except PlatformFileError MFile :=
  if (f.pos : Int) + offset < 0 ∨ (f.pos : Int) + offset > (f.contents.length : Int) then
    .error .SeekOutofBounds
  else .ok { f with pos := ((f.pos : Int) + offset).toNat }

/-- Little-endian 16-bit value of two wire bytes (`u16::from_le_bytes`). -/
def le16 (b0 b1 : Nat) : Nat := b0 + 256 * b1

/-- Little-endian 32-bit value of four wire bytes (`u32::from_le_bytes`). -/
def le32 (b0 b1 b2 b3 : Nat) : Nat := b0 + 256 * b1 + 65536 * b2 + 16777216 * b3

/-- Chunk tags (src/src/wav.rs, `enum ChunkTag`). -/
inductive ChunkTag
  | Riff
  | Rifx
  | Wave
  | Fmt
  | Data
  | Unknown (bytes : List Nat)
deriving DecidableEq, BEq

/-- Tag recognition from four raw bytes (src/src/wav.rs, `ChunkTag::from_bytes`). -/
def ChunkTag.from_bytes (bytes : List Nat) : ChunkTag :=
  match bytes with
  | [0x52, 0x49, 0x46, 0x46] => .Riff
  | [0x52, 0x49, 0x46, 0x58] => .Rifx
  | [0x57, 0x41, 0x56, 0x45] => .Wave
  | [0x64, 0x61, 0x74, 0x61] => .Data
  | [0x66, 0x6d, 0x74, 0x20] => .Fmt
  | other => .Unknown other

/-- Chunk descriptor (src/src/wav.rs, `struct Chunk`).  The Rust field `end`
is a Lean keyword and is rendered `end_`. -/
structure Chunk where
  start : Nat
  chunk : ChunkTag
  end_ : Nat
deriving DecidableEq, BEq

/-- Capacity of the chunk table (src/src/wav.rs, `const MAX_CHUNKS`). -/
def MAX_CHUNKS : Nat := 25

/-- Push on the fixed-capacity `heapless::Vec<Chunk, MAX_CHUNKS>`:
`none` when the vector is full (`push` returns `Err`). -/
def vpush (chunks : List Chunk) (c : Chunk) : Option (List Chunk) :=
  if chunks.length < MAX_CHUNKS then some (chunks ++ [c]) else none

/-- Decode one 8-byte chunk header located at file offset `index`
(src/src/wav.rs, `parse_chunk`, lines 181-195).  The declared size is read
little-endian from bytes 4..8 and one pad byte is added when it is odd
(RIFF word alignment); the padded length is used for `end_`. -/
def parse_chunk (bytes : List Nat) (index : Nat) : Chunk :=
  let tag := ChunkTag.from_bytes (bytes.take 4)
  let size := le32 (bytes.getD 4 0) (bytes.getD 5 0) (bytes.getD 6 0) (bytes.getD 7 0)
  let chunk_len := if size % 2 ≠ 0 then size + 1 else size
  { start := index + 8, chunk := tag, end_ := index + 8 + chunk_len }

/-- The `while index + 8 <= read_len` loop of `parse_chunks`
(src/src/wav.rs lines 157-177), as a function of the loop index.  It returns
the grown chunk table together with the file offset the scan continues at:
either the just-pushed chunk's `end_` (when the chunk straddles the window)
or `file_offset + read_len` (window exhausted).  The structural `fuel`
argument bounds the iteration count; `none` marks fuel exhaustion, which is
proved unreachable for the fuel the callers supply (every iteration advances
`idx` by at least 8). -/
def scan_window (fuel : Nat) (buf : List Nat) (rlen : Nat) (chunks : List Chunk)
    (fo idx : Nat) : Option (Except Error (List Chunk × Nat)) :=
  match fuel with
  | 0 => none
  | fuel2 + 1 =>
    if idx + 8 ≤ rlen then
      let c := parse_chunk ((buf.drop idx).take 8) (fo + idx)
      match vpush chunks c with
      | none => some (.error .ExceededMaxChunks)
      | some cs =>
        let chunk_len := c.end_ - c.start + 8
        if idx + chunk_len ≤ rlen then
          scan_window fuel2 buf rlen cs fo (idx + chunk_len)
        else
          some (.ok (cs, c.end_))
    else
      some (.ok (chunks, fo + rlen))

/-- Recursive first-pass chunk scan (src/src/wav.rs, `parse_chunks`,
lines 139-179), with a structural fuel bounding the recursion depth;
`none` marks fuel exhaustion, proved unreachable below for fuel exceeding
the remaining file length (every recursive call strictly increases the
file offset, and an offset at or past the end ends the scan). -/
def parse_chunks_go (fuel : Nat) (buf : List Nat) (file : MFile) (chunks : List Chunk)
    (file_offset : Nat) : Option (Except Error (MFile × List Nat × List Chunk)) :=
  match fuel with
  | 0 => none
  | fuel2 + 1 =>
    match MFile.seek_from_start file file_offset with
    | .error e => some (.error (.PlatformError e))
    | .ok f1 =>
      match mread f1 buf with
      | .error .EOF => some (.ok (f1, buf, chunks))
      | .error e => some (.error (.PlatformError e))
      | .ok (f2, buf2, read_len) =>
        if read_len = 0 then some (.ok (f2, buf2, chunks))
        else
          match scan_window (read_len + 1) buf2 read_len chunks file_offset 0 with
          | none => none
          | some (.error e) => some (.error e)
          | some (.ok (cs, next)) => parse_chunks_go fuel2 buf2 f2 cs next

/-- Entry point of the chunk scan with sufficient fuel.  The `none` branch is
unreachable (theorem `parse_chunks_go_total` below); its value is the
otherwise never-produced `Error.UnknownChunk`. -/
def parse_chunks (buf : List Nat) (file : MFile) (chunks : List Chunk)
    (file_offset : Nat) : Except Error (MFile × List Nat × List Chunk) :=
  match parse_chunks_go (file.contents.length + 2) buf file chunks file_offset with
  | some r => r
  | none => .error .UnknownChunk

/-- Audio format codes (src/src/wav.rs, `enum AudioFormat`): PCM only. -/
inductive AudioFormat
  | Pcm
deriving DecidableEq, BEq

/-- Format-code decoding (src/src/wav.rs, `AudioFormat::from_bytes`).  The
caller always hands a 2-byte slice, so the `try_into` failure path
(`ChunkSizeIncorrect`) is dead and only the format match remains. -/
def AudioFormat.from_bytes (bytes : List Nat) : Except Error AudioFormat :=
  match le16 (bytes.getD 0 0) (bytes.getD 1 0) with
  | 1 => .ok .Pcm
  | _ => .error .UnsupportedAudioFormat

/-- Trailing fmt parameter block (src/src/wav.rs, `struct ExtraFmtParam`). -/
structure ExtraFmtParam where
  param_size : Nat
deriving DecidableEq, BEq

/-- Decoded fmt descriptor (src/src/wav.rs, `struct Fmt`).  `sample_rate`
is the Rust `u16` field. -/
structure Fmt where
  audio_format : AudioFormat
  sample_rate : Nat
  channels : Channels
  sample_format : SampleFormat
  extra : Option ExtraFmtParam
deriving DecidableEq, BEq

/-- Fmt-chunk decoding (src/src/wav.rs, `parse_fmt`, lines 258-297).  Rust
range slices `buf[0..2]`, `buf[2..4]`, `buf[4..8]`, `buf[14..16]` abort when
the slice is shorter than the range end; those aborts are modelled by `none`.
The wire sample rate is a little-endian `u32` narrowed with `as u16`,
modelled as `% 65536`. -/
def parse_fmt (buf : List Nat) : Option (Except Error Fmt) :=
  if buf.length < 2 then none
  else
    match AudioFormat.from_bytes ((buf.drop 0).take 2) with
    | .error e => some (.error e)
    | .ok format =>
      if buf.length < 4 then none
      else
        match (match le16 (buf.getD 2 0) (buf.getD 3 0) with
               | 1 => some Channels.Mono
               | 2 => some Channels.Stereo
               | _ => none) with
        | none => some (.error .UnsupportedChannelCount)
        | some channels =>
          if buf.length < 8 then none
          else
            let sample_rate :=
              le32 (buf.getD 4 0) (buf.getD 5 0) (buf.getD 6 0) (buf.getD 7 0) % 65536
            if buf.length < 16 then none
            else
              match (match le16 (buf.getD 14 0) (buf.getD 15 0) with
                     | 8 => some SampleFormat.U8
                     | 16 => some SampleFormat.I16
                     | 24 => some SampleFormat.I24
                     | _ => none) with
              | none => some (.error .UnknownEncoding)
              | some encoding =>
                some (.ok { audio_format := format, sample_rate := sample_rate,
                            channels := channels, sample_format := encoding, extra := none })

/-- WAV reader state (src/src/wav.rs, `struct Wav`): owns the platform file,
the located `data` chunk bounds and the byte count read so far. -/
structure Wav where
  file : MFile
  data_read : Nat
  data_start : Nat
  data_end : Nat
  fmt : Fmt
deriving DecidableEq, BEq

/-- Constructor (src/src/wav.rs, `Wav::new`, lines 47-87): one 64-byte read,
the first header pushed unconditionally, the scan from offset 12, then the
`fmt` and `data` chunks located and decoded.  The outer `Option` carries the
two panic sites (the first `push(...).unwrap()` and the aborts inside
`parse_fmt`), both unreachable here. -/
def wav_new (file : MFile) : Option (Except Error Wav) :=
  let buf0 : List Nat := List.replicate 64 0
  match mread file buf0 with
  | .error e => some (.error (.PlatformError e))
  | .ok (f1, buf1, _) =>
    match vpush [] (parse_chunk (buf1.take 8) 0) with
    | none => none
    | some chunks0 =>
      match parse_chunks buf1 f1 chunks0 12 with
      | .error e => some (.error e)
      | .ok (f2, buf2, chunks) =>
        match chunks.find? (fun c => c.chunk == ChunkTag.Fmt) with
        | none => some (.error .NoFmtChunkFound)
        | some fmt_chunk =>
          match MFile.seek_from_start f2 fmt_chunk.start with
          | .error e => some (.error (.PlatformError e))
          | .ok f3 =>
            match mread f3 buf2 with
            | .error e => some (.error (.PlatformError e))
            | .ok (f4, buf3, _) =>
              match parse_fmt buf3 with
              | none => none
              | some (.error e) => some (.error e)
              | some (.ok fmt) =>
                match chunks.find? (fun c => c.chunk == ChunkTag.Data) with
                | none => some (.error .NoDataChunkFound)
                | some data_chunk =>
                  match MFile.seek_from_start f4 data_chunk.start with
                  | .error e => some (.error (.PlatformError e))
                  | .ok f5 =>
                    some (.ok { file := f5, data_read := 0,
                                data_start := data_chunk.start,
                                data_end := data_chunk.end_, fmt := fmt })

/-- Audio read (src/src/wav.rs, `Wav::read`, lines 93-108): the requested
length is clamped with `data_end` before the platform read; the byte count
read is added to `data_read`.  Returns the new reader, the new caller buffer
and the byte count. -/
def Wav.read (w : Wav) (buf : List Nat) : Except Error (Wav × List Nat × Nat) :=
  let b := if buf.length + w.data_read ≥ w.data_end then buf.take (w.data_end - w.data_read)
           else buf
  match mread w.file b with
  | .ok (f2, b2, len) =>
    .ok ({ w with file := f2, data_read := w.data_read + len }, b2 ++ buf.drop b.length, len)
  | .error e => .error (.PlatformError e)

/-- Accessor (src/src/wav.rs, `Wav::sample_rate`). -/
def Wav.sample_rate (w : Wav) : Nat := w.fmt.sample_rate

/-- Accessor (src/src/wav.rs, `Wav::channels`). -/
def Wav.channels (w : Wav) : Channels := w.fmt.channels

/-- Accessor (src/src/wav.rs, `Wav::sample_format`). -/
def Wav.sample_format (w : Wav) : SampleFormat := w.fmt.sample_format

/-- Relative seek by a sample offset (src/src/wav.rs, `Wav::try_seek`,
lines 122-127): the sample offset is scaled by the sample size into a byte
offset for the platform seek. -/
def Wav.try_seek (w : Wav) (sample_offset : Int) : Except Error Wav :=
  let byte_offset := sample_offset * (SampleFormat.size (Wav.sample_format w) : Int)
  match MFile.seek_from_current w.file byte_offset with
  | .ok f2 => .ok { w with file := f2 }
  | .error e => .error (.PlatformError e)

/-- EOF test (src/src/wav.rs, `Wav::is_eof`, lines 129-131). -/
def Wav.is_eof (w : Wav) : Bool := w.data_end == w.data_read

/-- Played byte count (src/src/wav.rs, `Wav::played`). -/
def Wav.played (w : Wav) : Nat := w.data_read

/-- Rewind to the first sample (src/src/lib.rs, `AudioFile::restart` default
method, lines 30-32): a relative seek by the negated played count. -/
def Wav.restart (w : Wav) : Except Error Wav :=
  Wav.try_seek w (-(Wav.played w : Int))

/-- The 52-byte scenario stream of the spec (section 8) and of the repo test
`parse_le_16bit_8k_mono`: RIFF/WAVE header, 16-byte fmt chunk
(PCM, mono, 8000 Hz, 16-bit), 8-byte data chunk. -/
def scenarioBytes : List Nat :=
  [0x52, 0x49, 0x46, 0x46, 0x32, 0x00, 0x00, 0x00,
   0x57, 0x41, 0x56, 0x45,
   0x66, 0x6d, 0x74, 0x20, 0x10, 0x00, 0x00, 0x00,
   0x01, 0x00, 0x01, 0x00, 0x40, 0x1f, 0x00, 0x00,
   0x80, 0x3e, 0x00, 0x00, 0x20, 0x00, 0x10, 0x00,
   0x64, 0x61, 0x74, 0x61, 0x08, 0x00, 0x00, 0x00,
   0x01, 0x00, 0xfe, 0xff, 0x02, 0x00, 0xff, 0xff]

/-- The scenario stream as a freshly opened file. -/
def scenarioFile : MFile := { contents := scenarioBytes, pos := 0 }

/-- Decidable equality for `Except`, used to evaluate concrete runs. -/
def exceptDecEq {e a : Type} [DecidableEq e] [DecidableEq a] : DecidableEq (Except e a)
  | .ok x, .ok y =>
    match decEq x y with
    | isTrue h => isTrue (h ▸ rfl)
    | isFalse h => isFalse (fun hh => h (Except.ok.inj hh))
  | .ok _, .error _ => isFalse (fun hh => Except.noConfusion hh)
  | .error _, .ok _ => isFalse (fun hh => Except.noConfusion hh)
  | .error x, .error y =>
    match decEq x y with
    | isTrue h => isTrue (h ▸ rfl)
    | isFalse h => isFalse (fun hh => h (Except.error.inj hh))

instance {e a : Type} [DecidableEq e] [DecidableEq a] : DecidableEq (Except e a) := exceptDecEq

/-- Scenario stream with one trailing 2-byte `junk` chunk after the data
chunk (bytes 0xaa 0xbb at offsets 60..62); the data chunk still spans file
offsets 44..52. -/
def junkTailBytes : List Nat :=
  scenarioBytes ++ [0x6a, 0x75, 0x6e, 0x6b, 0x02, 0x00, 0x00, 0x00, 0xaa, 0xbb]

/-- Scenario stream whose leading tag is `JUNK` instead of `RIFF`. -/
def junkRiffBytes : List Nat := [0x4a, 0x55, 0x4e, 0x4b] ++ scenarioBytes.drop 4

/-- Scenario stream whose container tag at offsets 8..12 is `XXXX` instead
of `WAVE`. -/
def junkWaveBytes : List Nat :=
  scenarioBytes.take 8 ++ [0x58, 0x58, 0x58, 0x58] ++ scenarioBytes.drop 12

/-- A block of `n` zero-sized `junk` chunks (8 header bytes each). -/
def repJunk : Nat → List Nat
  | 0 => []
  | n + 1 => [0x6a, 0x75, 0x6e, 0x6b, 0x00, 0x00, 0x00, 0x00] ++ repJunk n

/-- Scenario stream followed by 23 zero-sized junk chunks: 26 top-level
chunks in total (RIFF, fmt, data and the 23 junk chunks), one more than
`MAX_CHUNKS`; the fmt and data chunks are scanned first. -/
def manyChunksBytes : List Nat := scenarioBytes ++ repJunk 23

/-- True when construction returned a reader (no error, no abort). -/
def construction_ok : Option (Except Error Wav) → Bool
  | some (.ok _) => true
  | _ => false

/-- Open the scenario file, read 8 bytes (the whole data chunk), and report
`(played, data_end - data_start, is_eof)` of the resulting reader. -/
def c1_probe : Option (Nat × Nat × Bool) :=
  match wav_new scenarioFile with
  | some (.ok w) =>
    match Wav.read w (List.replicate 8 0) with
    | .ok (w1, _, _) => some (Wav.played w1, w1.data_end - w1.data_start, Wav.is_eof w1)
    | .error _ => none
  | _ => none

/-- Open the junk-tail file and read with a 10-byte buffer from the fresh
reader; report the returned buffer, the byte count and the reader's
`data_end`. -/
def c2_probe : Option (List Nat × Nat × Nat) :=
  match wav_new { contents := junkTailBytes, pos := 0 } with
  | some (.ok w) =>
    match Wav.read w (List.replicate 10 0) with
    | .ok (w1, b1, n1) => some (b1, n1, w1.data_end)
    | .error _ => none
  | _ => none

/-- Open the scenario file, read one 2-byte sample, call `restart`, read
2 bytes again; report both byte pairs. -/
def c3_probe : Option (List Nat × List Nat) :=
  match wav_new scenarioFile with
  | some (.ok w) =>
    match Wav.read w (List.replicate 2 0) with
    | .ok (w1, b1, _) =>
      match Wav.restart w1 with
      | .ok w2 =>
        match Wav.read w2 (List.replicate 2 0) with
        | .ok (_, b2, _) => some (b1, b2)
        | .error _ => none
      | .error _ => none
    | .error _ => none
  | _ => none

/-- Open the scenario file, report the decoded descriptor via the reader's
accessors together with four successive 2-byte reads. -/
def c8_probe : Option ((Channels × Nat × SampleFormat) × List (List Nat)) :=
  match wav_new scenarioFile with
  | some (.ok w) =>
    match Wav.read w (List.replicate 2 0) with
    | .ok (w1, b1, _) =>
      match Wav.read w1 (List.replicate 2 0) with
      | .ok (w2, b2, _) =>
        match Wav.read w2 (List.replicate 2 0) with
        | .ok (w3, b3, _) =>
          match Wav.read w3 (List.replicate 2 0) with
          | .ok (_, b4, _) =>
            some ((Wav.channels w, Wav.sample_rate w, Wav.sample_format w), [b1, b2, b3, b4])
          | .error _ => none
        | .error _ => none
      | .error _ => none
    | .error _ => none
  | _ => none

/-- A 16-byte fmt payload declaring a 70000 Hz sample rate
(bytes 4..8 are 70 11 01 00, little-endian 70000), PCM, mono, 16-bit. -/
def fmtBuf70k : List Nat :=
  [0x01, 0x00, 0x01, 0x00, 0x70, 0x11, 0x01, 0x00,
   0x00, 0x00, 0x00, 0x00, 0x00, 0x00, 0x10, 0x00]

/-- The descriptor `parse_fmt` produces for `fmtBuf70k`: the 70000 Hz wire
rate is narrowed to 70000 % 65536 = 4464. -/
def fmt70k : Fmt :=
  { audio_format := .Pcm, sample_rate := 4464, channels := .Mono,
    sample_format := .I16, extra := none }

/-- An 8-byte header declaring an odd payload size of 3. -/
def oddHdr : List Nat := [0x6a, 0x75, 0x6e, 0x6b, 0x03, 0x00, 0x00, 0x00]

set_option maxRecDepth 8192

theorem mread_ok_contents {f f2 : MFile} {buf b2 : List Nat} {n : Nat}
    (h : mread f buf = .ok (f2, b2, n)) : f2.contents = f.contents := by
  unfold mread at h
  split at h
  · simp at h
  · simp only [Except.ok.injEq, Prod.mk.injEq] at h
    obtain ⟨h1, -, -⟩ := h
    subst h1
    rfl

theorem seek_start_ok {f f1 : MFile} {offset : Nat}
    (h : MFile.seek_from_start f offset = .ok f1) :
    f1.contents = f.contents ∧ f1.pos = offset ∧ offset ≤ f.contents.length := by
  unfold MFile.seek_from_start at h
  split at h
  · simp at h
  · simp only [Except.ok.injEq] at h
    subst h
    refine ⟨rfl, rfl, by omega⟩

theorem parse_chunk_end_ge (bytes : List Nat) (i : Nat) :
    i + 8 ≤ (parse_chunk bytes i).end_ := by
  unfold parse_chunk
  exact Nat.le_add_right _ _

theorem scan_window_ok_next :
    ∀ fuel (buf : List Nat) (rlen : Nat) chunks (fo idx : Nat) cs next, 1 ≤ rlen →
      scan_window fuel buf rlen chunks fo idx = some (.ok (cs, next)) →
      fo + min 8 rlen ≤ next := by
  intro fuel buf rlen
  induction fuel with
  | zero => intro chunks fo idx cs next h1 h2; simp [scan_window] at h2
  | succ n ih =>
    intro chunks fo idx cs next h1 h2
    unfold scan_window at h2
    split at h2
    · dsimp only at h2
      split at h2
      · simp at h2
      · split at h2
        · exact ih _ _ _ _ _ h1 h2
        · simp only [Option.some.injEq, Except.ok.injEq, Prod.mk.injEq] at h2
          obtain ⟨-, h3⟩ := h2
          have h4 := parse_chunk_end_ge ((buf.drop idx).take 8) (fo + idx)
          omega
    · simp only [Option.some.injEq, Except.ok.injEq, Prod.mk.injEq] at h2
      obtain ⟨-, h3⟩ := h2
      omega

theorem scan_window_isSome :
    ∀ fuel (buf : List Nat) (rlen : Nat) chunks (fo idx : Nat), rlen - idx < fuel →
      (scan_window fuel buf rlen chunks fo idx).isSome := by
  intro fuel buf rlen
  induction fuel with
  | zero => intro chunks fo idx h; omega
  | succ n ih =>
    intro chunks fo idx h
    unfold scan_window
    split
    · dsimp only
      split
      · simp
      · split
        · rename_i hle cs hfits
          apply ih
          have h4 := parse_chunk_end_ge ((buf.drop idx).take 8) (fo + idx)
          omega
        · simp
    · simp

theorem parse_chunks_go_isSome :
    ∀ fuel buf file chunks fo, file.contents.length + 1 - fo < fuel →
      (parse_chunks_go fuel buf file chunks fo).isSome := by
  intro fuel
  induction fuel with
  | zero => intro buf file chunks fo h; omega
  | succ n ih =>
    intro buf file chunks fo h
    unfold parse_chunks_go
    split
    · simp
    · rename_i f1 hseek
      obtain ⟨hc1, hp1, hle1⟩ := seek_start_ok hseek
      split
      · simp
      · simp
      · rename_i f2 buf2 rlen hread
        have hc2 : f2.contents = f1.contents := mread_ok_contents hread
        split
        · simp
        · rename_i hrlen
          split
          · rename_i hsw
            have := scan_window_isSome (rlen + 1) buf2 rlen chunks fo 0 (by omega)
            rw [hsw] at this
            simp at this
          · simp
          · rename_i cs next hsw
            apply ih
            have h5 := scan_window_ok_next (rlen + 1) buf2 rlen chunks fo 0 cs next (by omega) hsw
            rw [hc2, hc1]
            rw [hc1] at *
            omega

/-- C1: the claim says `is_eof()` is true exactly when the byte count read
equals the data chunk size `data_end - data_start`.  On the scenario file the
whole 8-byte data chunk is read (`played = data_end - data_start = 8`), yet
`is_eof` is `false`, because the code compares the byte count `data_read`
with the absolute file offset `data_end` (src/src/wav.rs lines 129-131). -/
theorem is_eof_false_after_full_chunk : c1_probe = some (8, 8, false) := by decide

/-- C2: the claim says `read` never returns bytes from file offsets at or
past `data_end`.  On the junk-tail file a fresh 10-byte read returns 10
bytes, the last two being the bytes at offsets 52 and 53 (0x6a 0x75, the
trailing chunk's tag) even though `data_end = 52`: the clamp at
src/src/wav.rs line 95 compares `buf.len() + data_read` with the absolute
offset `data_end` instead of with the remaining chunk size. -/
theorem read_bleeds_past_data_end :
    c2_probe = some ([1, 0, 254, 255, 2, 0, 255, 255, 106, 117], 10, 52) := by decide

/-- C3: the claim says `restart()` repositions at the start of the data
region for every sample format.  On the I16 scenario file the first read
returns 01 00; after `restart` the re-read returns 00 00, because `restart`
hands `played()` (a byte count) to `try_seek`, which scales it again by the
2-byte sample size and seeks to `data_start - played()`. -/
theorem restart_not_bit_identical : c3_probe = some ([1, 0], [0, 0]) := by decide

/-- C4: the claim says construction fails with `NoRiffChunkFound` when the
leading tag is not RIFF/RIFX and with `NoWaveTagFound` when offsets 8..12
are not WAVE.  `Wav::new` (src/src/wav.rs lines 47-60) never inspects either
tag: both corrupted streams construct successfully. -/
theorem no_riff_wave_validation :
    construction_ok (wav_new { contents := junkRiffBytes, pos := 0 }) = true ∧
    construction_ok (wav_new { contents := junkWaveBytes, pos := 0 }) = true := by decide

/-- C5 counterexample: a well-formed file whose fmt and data chunks are
scanned first, followed by 23 junk chunks (26 top-level chunks in total,
capacity 25): construction does not succeed but fails with
`ExceededMaxChunks`, refuting the claim that the scan stops silently at
capacity. -/
theorem exceeding_capacity_errors_cx :
    wav_new { contents := manyChunksBytes, pos := 0 } = some (.error .ExceededMaxChunks) := by
  decide

/-- C5 amended: when the chunk table already holds `MAX_CHUNKS` chunks and
another chunk header lies in the window, the scan returns
`Error.ExceededMaxChunks` (the `push` failure is propagated,
src/src/wav.rs line 167); construction fails rather than stopping silently. -/
theorem exceeding_capacity_errors :
    ∀ fuel buf rlen chunks fo idx, chunks.length = MAX_CHUNKS → idx + 8 ≤ rlen →
      scan_window (fuel + 1) buf rlen chunks fo idx =
        some (.error .ExceededMaxChunks) := by
  intro fuel buf rlen chunks fo idx hlen hle
  have hv : vpush chunks (parse_chunk ((buf.drop idx).take 8) (fo + idx)) = none := by
    unfold vpush
    rw [if_neg (by omega)]
  unfold scan_window
  rw [if_pos hle]
  dsimp only
  rw [hv]

/-- Witness for the amended C5 theorem at a concrete full table. -/
theorem exceeding_capacity_errors_witness :
    ((List.replicate 25 { start := 0, chunk := ChunkTag.Riff, end_ := 0 } : List Chunk).length =
        MAX_CHUNKS ∧ 0 + 8 ≤ 8) ∧
    scan_window 1 (List.replicate 8 0) 8
        (List.replicate 25 { start := 0, chunk := ChunkTag.Riff, end_ := 0 }) 0 0 =
      some (.error .ExceededMaxChunks) :=
  ⟨⟨by decide, by decide⟩,
    exceeding_capacity_errors 0 (List.replicate 8 0) 8
      (List.replicate 25 { start := 0, chunk := ChunkTag.Riff, end_ := 0 }) 0 0
      (by decide) (by decide)⟩

/-- C6: the claim says any slice shorter than 16 bytes makes `parse_fmt`
return `ChunkSizeIncorrect` and that it never panics.  The unguarded range
slices of src/src/wav.rs lines 259-281 abort instead (modelled as `none`),
both on a 1-byte slice and on a 15-byte slice with a valid prefix. -/
theorem parse_fmt_aborts_on_short_slice :
    parse_fmt [1] = none ∧
    parse_fmt [1, 0, 1, 0, 0x40, 0x1f, 0, 0, 0x80, 0x3e, 0, 0, 0x20, 0, 0x10] = none := by
  decide

/-- C7 counterexample: for the header declaring the odd payload size 3 the
produced chunk has `end_ = start + 4`, not `start + 3`: the pad byte is
included in `end_`, refuting the claim that it is excluded. -/
theorem chunk_end_excludes_pad_cx :
    (parse_chunk oddHdr 0).end_ ≠ (parse_chunk oddHdr 0).start + 3 := by decide

/-- C7 amended: a chunk header at offset `i` declaring size `L` produces
`start = i + 8` and `end_ = start + L` rounded up to even (`+ L % 2`), so
for odd `L`, `end_ = start + L + 1`; and when a pushed chunk overflows the
current window the scan resumes exactly at that chunk's `end_`, hence the
chunk following an odd-sized one is still located at `start + L + 1`. -/
theorem chunk_end_includes_pad :
    (∀ b0 b1 b2 b3 b4 b5 b6 b7 i,
        (parse_chunk [b0, b1, b2, b3, b4, b5, b6, b7] i).start = i + 8 ∧
        (parse_chunk [b0, b1, b2, b3, b4, b5, b6, b7] i).end_ =
          i + 8 + le32 b4 b5 b6 b7 + le32 b4 b5 b6 b7 % 2 ∧
        (le32 b4 b5 b6 b7 % 2 = 1 →
          (parse_chunk [b0, b1, b2, b3, b4, b5, b6, b7] i).end_ =
            (parse_chunk [b0, b1, b2, b3, b4, b5, b6, b7] i).start + le32 b4 b5 b6 b7 + 1)) ∧
    (∀ fuel buf rlen chunks cs fo idx,
        idx + 8 ≤ rlen →
        vpush chunks (parse_chunk ((buf.drop idx).take 8) (fo + idx)) = some cs →
        rlen < idx + ((parse_chunk ((buf.drop idx).take 8) (fo + idx)).end_ -
          (parse_chunk ((buf.drop idx).take 8) (fo + idx)).start + 8) →
        scan_window (fuel + 1) buf rlen chunks fo idx =
          some (.ok (cs, (parse_chunk ((buf.drop idx).take 8) (fo + idx)).end_))) := by
  constructor
  · intro b0 b1 b2 b3 b4 b5 b6 b7 i
    refine ⟨rfl, ?_, ?_⟩
    · simp only [parse_chunk, List.getD_cons_succ, List.getD_cons_zero]
      split <;> omega
    · intro hodd
      simp only [parse_chunk, List.getD_cons_succ, List.getD_cons_zero]
      split <;> omega
  · intro fuel buf rlen chunks cs fo idx h1 h2 h3
    unfold scan_window
    rw [if_pos h1]
    dsimp only
    rw [h2]
    dsimp only
    rw [if_neg (by omega)]

/-- Witness for the amended C7 theorem at the odd-size-3 header. -/
theorem chunk_end_includes_pad_witness :
    ((parse_chunk [106, 117, 110, 107, 3, 0, 0, 0] 0).end_ =
        (parse_chunk [106, 117, 110, 107, 3, 0, 0, 0] 0).start + le32 3 0 0 0 + 1) ∧
    (0 + 8 ≤ 8 ∧
      vpush [] (parse_chunk ((oddHdr.drop 0).take 8) (0 + 0)) =
        some [{ start := 8, chunk := ChunkTag.Unknown [106, 117, 110, 107], end_ := 12 }] ∧
      8 < 0 + ((parse_chunk ((oddHdr.drop 0).take 8) (0 + 0)).end_ -
        (parse_chunk ((oddHdr.drop 0).take 8) (0 + 0)).start + 8) ∧
      scan_window (0 + 1) oddHdr 8 [] 0 0 =
        some (.ok ([{ start := 8, chunk := ChunkTag.Unknown [106, 117, 110, 107], end_ := 12 }],
          (parse_chunk ((oddHdr.drop 0).take 8) (0 + 0)).end_))) :=
  ⟨(chunk_end_includes_pad.1 106 117 110 107 3 0 0 0 0).2.2 (by decide),
    by decide, by decide, by decide,
    chunk_end_includes_pad.2 0 oddHdr 8 []
      [{ start := 8, chunk := ChunkTag.Unknown [106, 117, 110, 107], end_ := 12 }] 0 0
      (by decide) (by decide) (by decide)⟩

/-- C8: the 52-byte scenario stream decodes to mono, 8000 Hz, I16, and four
successive 2-byte reads return 01 00, fe ff, 02 00, ff ff in order. -/
theorem scenario_decodes :
    c8_probe = some ((Channels.Mono, 8000, SampleFormat.I16),
      [[1, 0], [254, 255], [2, 0], [255, 255]]) := by decide

/-- C9: whenever `parse_fmt` succeeds, the descriptor's sample rate is the
little-endian 32-bit wire value of payload bytes 4..8 reduced modulo 65536
(the `as u16` narrowing), and `Wav::sample_rate` returns that field
unchanged: wire rates above 65535 Hz are silently truncated, not rejected. -/
theorem sample_rate_truncates :
    (∀ buf fmt, parse_fmt buf = some (.ok fmt) →
        fmt.sample_rate =
          le32 (buf.getD 4 0) (buf.getD 5 0) (buf.getD 6 0) (buf.getD 7 0) % 65536) ∧
    (∀ w : Wav, Wav.sample_rate w = w.fmt.sample_rate) := by
  constructor
  · intro buf fmt h
    unfold parse_fmt at h
    split at h
    · simp at h
    · split at h
      · simp at h
      · split at h
        · simp at h
        · split at h
          · simp at h
          · split at h
            · simp at h
            · dsimp only at h
              split at h
              · simp at h
              · split at h
                · simp at h
                · simp only [Option.some.injEq, Except.ok.injEq] at h
                  subst h
                  rfl
  · intro w
    rfl

/-- Witness for C9 at a 70000 Hz fmt payload: parsing succeeds and the
descriptor holds 70000 % 65536 = 4464. -/
theorem sample_rate_truncates_witness :
    parse_fmt fmtBuf70k = some (.ok fmt70k) ∧
    fmt70k.sample_rate =
      le32 (fmtBuf70k.getD 4 0) (fmtBuf70k.getD 5 0)
        (fmtBuf70k.getD 6 0) (fmtBuf70k.getD 7 0) % 65536 :=
  ⟨by decide, sample_rate_truncates.1 fmtBuf70k fmt70k (by decide)⟩

/-- C10: the chunk scan is well-founded on the remaining file length:
every successful window scan hands back a strictly larger file offset
(larger by at least `min 8 read_len`, i.e. by the full positive read length
for a window shorter than one header, and by at least 8 bytes otherwise,
in particular for the resume-at-chunk-end branch), the recursion completes
within fuel bounded by the remaining file length, and a read at
end-of-file ends the scan normally. -/
theorem parse_chunks_terminates :
    (∀ fuel buf rlen chunks fo idx cs next, 1 ≤ rlen →
        scan_window fuel buf rlen chunks fo idx = some (.ok (cs, next)) →
        fo < next ∧ fo + min 8 rlen ≤ next) ∧
    (∀ fuel buf file chunks fo, file.contents.length + 1 - fo < fuel →
        (parse_chunks_go fuel buf file chunks fo).isSome) ∧
    (∀ fuel buf file chunks fo, file.contents.length = fo →
        parse_chunks_go (fuel + 1) buf file chunks fo =
          some (.ok ({ file with pos := fo }, buf, chunks))) := by
  refine ⟨?_, ?_, ?_⟩
  · intro fuel buf rlen chunks fo idx cs next h1 h2
    have h3 := scan_window_ok_next fuel buf rlen chunks fo idx cs next h1 h2
    omega
  · intro fuel buf file chunks fo h
    exact parse_chunks_go_isSome fuel buf file chunks fo h
  · intro fuel buf file chunks fo h
    obtain ⟨contents, pos⟩ := file
    simp only [MFile.contents] at h
    subst h
    simp [parse_chunks_go, MFile.seek_from_start, mread]

/-- Witness for C10 at concrete inputs: a window of 8 zero bytes advances
the offset from 0 to 8; the scan over the empty file is total with fuel 2;
the scan launched at the scenario file's exact length ends at once. -/
theorem parse_chunks_terminates_witness :
    (1 ≤ 8 ∧
      scan_window 2 (List.replicate 8 0) 8 [] 0 0 =
        some (.ok ([{ start := 8, chunk := ChunkTag.Unknown [0, 0, 0, 0], end_ := 8 }], 8)) ∧
      (0 < 8 ∧ 0 + min 8 8 ≤ 8)) ∧
    (({ contents := [], pos := 0 } : MFile).contents.length + 1 - 0 < 2 ∧
      (parse_chunks_go 2 [] { contents := [], pos := 0 } [] 0).isSome) ∧
    (scenarioFile.contents.length = 52 ∧
      parse_chunks_go 1 [] scenarioFile [] 52 =
        some (.ok ({ scenarioFile with pos := 52 }, [], []))) :=
  ⟨⟨by decide, by decide,
      parse_chunks_terminates.1 2 (List.replicate 8 0) 8 [] 0 0
        [{ start := 8, chunk := ChunkTag.Unknown [0, 0, 0, 0], end_ := 8 }] 8
        (by decide) (by decide)⟩,
    ⟨by decide, parse_chunks_terminates.2.1 2 [] { contents := [], pos := 0 } [] 0 (by decide)⟩,
    ⟨by decide, parse_chunks_terminates.2.2 0 [] scenarioFile [] 52 (by decide)⟩⟩
